import Mathlib

/-!
Shallow embedding of the axkeystore secret-storage CLI (Rust sources:
`src/crypto.rs`, `src/config.rs`, `src/auth.rs`, `src/storage.rs`,
`src/main.rs`) together with proofs settling the frozen claims about its
specification.

Modelling conventions:
* Machine bytes are `Nat` (values are only moved around, never overflowed).
* External library primitives (the Argon2id KDF, the XChaCha20-Poly1305
  AEAD, base64 text encoding, serde JSON serialisation, UTF-8 decoding and
  the OS random source) are idealised: the KDF is the injective pairing of
  password and salt; the AEAD ciphertext records the message together with
  an authentication tag over key and nonce, so that decryption under any
  other key or nonce fails, exactly the guarantee the source relies on;
  randomness is passed in as explicit parameters.
* Each fallible Rust function becomes a Lean function into `Except String`
  carrying the source's error message; `std::process::exit(1)` paths in
  `main.rs` are modelled as error results.
* Remote (GitHub contents API) and local-disk state are explicit values;
  every issued write request is recorded in an event/request trace so that
  ordering and "no write happened" claims are statable.
-/

deriving instance DecidableEq for Except

namespace AxKeyStore

/-- A byte, idealised as an unbounded natural number. -/
abbrev Byte := Nat

/-- A byte string (Rust `Vec<u8>` / `&[u8]`). -/
abbrev Bytes := List Byte

/-- Rust `str::as_bytes`, idealised: one byte per character (code point). -/
def strToBytes (s : String) : Bytes := s.data.map Char.toNat

/-- Rust `String::from_utf8`, idealised as the partial inverse of
`strToBytes`: succeeds exactly when every byte is the code of a character,
failing (as the source does) on byte strings that decode to nothing. -/
def bytesToStr (bs : Bytes) : Option String :=
  let cs := bs.map Char.ofNat
  if cs.map Char.toNat = bs then some ⟨cs⟩ else none

/-- Idealised base64 text encoding of a value (the source base64-encodes the
AEAD ciphertext and nonce into the JSON record): a valid carrier remembers
the encoded value, an invalid carrier models arbitrary text that fails to
decode. -/
inductive B64 (α : Type) where
  | valid (a : α)
  | invalid (raw : String)
deriving DecidableEq

/-- base64 encoding (`BASE64.encode` in `crypto.rs`). -/
def b64encode {α : Type} (a : α) : B64 α := .valid a

/-- base64 decoding (`BASE64.decode` in `crypto.rs`). -/
def b64decode {α : Type} : B64 α → Option α
  | .valid a => some a
  | .invalid _ => none

/-- Idealised serde JSON serialisation of a value (used for
`serde_json::to_vec` / `from_slice` on encrypted blobs and config files). -/
inductive Serde (α : Type) where
  | valid (a : α)
  | invalid (raw : String)
deriving DecidableEq

/-- `serde_json::to_vec` / `to_string_pretty`. -/
def serdeSer {α : Type} (a : α) : Serde α := .valid a

/-- `serde_json::from_slice` / `from_str`. -/
def serdeDe {α : Type} : Serde α → Option α
  | .valid a => some a
  | .invalid _ => none

/-- A derived 32-byte symmetric key, idealised as the (password, salt) pair
that Argon2id hashes into it (`CryptoHandler::derive_key` in `crypto.rs`);
the KDF is treated as injective, the standard idealisation. -/
structure DerivedKey where
  password : String
  salt : String
deriving DecidableEq

/-- `CryptoHandler::derive_key` (`crypto.rs` lines 38-58), idealised KDF. -/
def derive_key (password : String) (salt : String) : DerivedKey :=
  ⟨password, salt⟩

/-- Idealised XChaCha20-Poly1305 ciphertext: the encrypted message together
with the authentication tag binding key and nonce. -/
structure AeadCiphertext where
  msg : Bytes
  tagKey : DerivedKey
  tagNonce : Bytes
deriving DecidableEq

/-- Idealised AEAD encryption (`cipher.encrypt` with empty associated
data). -/
def aead_encrypt (key : DerivedKey) (nonce : Bytes) (msg : Bytes) :
    AeadCiphertext :=
  ⟨msg, key, nonce⟩

/-- Idealised AEAD decryption: succeeds only under the exact key and nonce
of encryption, otherwise the integrity check fails — the property the
source design depends on ("wrong password" is an AEAD failure). -/
def aead_decrypt (key : DerivedKey) (nonce : Bytes) (ct : AeadCiphertext) :
    Option Bytes :=
  if ct.tagKey = key ∧ ct.tagNonce = nonce then some ct.msg else none

/-- `EncryptedBlob` (`crypto.rs` lines 14-19): salt, nonce and ciphertext,
binary fields text-encoded. -/
structure EncryptedBlob where
  salt : String
  nonce : B64 Bytes
  ciphertext : B64 AeadCiphertext
deriving DecidableEq

/-- The 62-character alphanumeric charset of `generate_master_key`
(`crypto.rs` line 27). -/
def masterKeyCharset : List Char :=
  "ABCDEFGHIJKLMNOPQRSTUVWXYZabcdefghijklmnopqrstuvwxyz0123456789".data

/-- `CryptoHandler::generate_master_key` (`crypto.rs` lines 25-35): maps 36
independent random draws from the 62-character charset to a 36-character
key string; the RNG draws are the explicit `seed` argument. -/
def generate_master_key (seed : Fin 36 → Fin 62) : String :=
  ⟨(List.finRange 36).map fun i => masterKeyCharset.getD (seed i).val 'A'⟩

/-- `CryptoHandler::encrypt` (`crypto.rs` lines 60-84). The fresh random
salt and the fresh random 24-byte nonce drawn from `OsRng` are the explicit
`saltR` / `nonceR` arguments. -/
def encrypt (data : Bytes) (password : String) (saltR : String)
    (nonceR : Bytes) : EncryptedBlob :=
  let key := derive_key password saltR
  let ct := aead_encrypt key nonceR data
  { salt := saltR, nonce := b64encode nonceR, ciphertext := b64encode ct }

/-- `CryptoHandler::decrypt` (`crypto.rs` lines 86-112): re-derive the key
from the record's salt, base64-decode nonce and ciphertext, check the
24-byte nonce length, authenticated-decrypt. -/
def decrypt (blob : EncryptedBlob) (password : String) :
    Except String Bytes :=
  let key := derive_key password blob.salt
  match b64decode blob.nonce with
  | none => .error "Invalid nonce base64"
  | some nonce_bytes =>
    if nonce_bytes.length ≠ 24 then .error "Invalid nonce length"
    else
      match b64decode blob.ciphertext with
      | none => .error "Invalid ciphertext base64"
      | some ct =>
        match aead_decrypt key nonce_bytes ct with
        | some plaintext => .ok plaintext
        | none => .error "Decryption failed - wrong password?"

theorem decrypt_encrypt (data : Bytes) (password saltR : String)
    (nonceR : Bytes) (h : nonceR.length = 24) :
    decrypt (encrypt data password saltR nonceR) password = .ok data := by
  simp [decrypt, encrypt, b64decode, b64encode, aead_encrypt, aead_decrypt,
    h]

theorem decrypt_encrypt_wrong_password (data : Bytes)
    (pw1 pw2 saltR : String) (nonceR : Bytes) (hne : pw1 ≠ pw2) :
    decrypt (encrypt data pw1 saltR nonceR) pw2 =
      (if nonceR.length = 24 then
        .error "Decryption failed - wrong password?"
      else .error "Invalid nonce length") := by
  by_cases h : nonceR.length = 24 <;>
    simp [decrypt, encrypt, b64decode, b64encode, aead_encrypt,
      aead_decrypt, derive_key, h, DerivedKey.mk.injEq, Ne.symm hne, hne]

theorem bytesToStr_strToBytes (s : String) :
    bytesToStr (strToBytes s) = some s := by
  unfold bytesToStr strToBytes
  simp [List.map_map, Function.comp_def, Char.ofNat_toNat]

/-- C4: for every plaintext byte string `p` and password `pw`, decrypting
the record produced by `Encrypt(p, pw)` with the same password `pw` returns
exactly `p` (for every fresh salt and every fresh 24-byte nonce the random
source can produce, as in the source where the nonce is always 24 bytes). -/
theorem C4_encrypt_decrypt_roundtrip (p : Bytes) (pw : String)
    (saltR : String) (nonceR : Bytes) (h : nonceR.length = 24) :
    decrypt (encrypt p pw saltR nonceR) pw = .ok p :=
  decrypt_encrypt p pw saltR nonceR h

theorem C4_encrypt_decrypt_roundtrip_witness :
    decrypt (encrypt [1, 2, 3] "pw" "salt0"
        (List.replicate 24 0)) "pw" = .ok [1, 2, 3] :=
  C4_encrypt_decrypt_roundtrip [1, 2, 3] "pw" "salt0"
    (List.replicate 24 0) (by decide)

/-- Rust `str::trim` (whitespace from both ends), over the character
list. -/
def rustTrimList (l : List Char) : List Char :=
  ((l.dropWhile Char.isWhitespace).reverse.dropWhile Char.isWhitespace).reverse

/-- Rust `str::trim_matches('/')`: strip slashes from both ends. -/
def trimMatchesSlash (l : List Char) : List Char :=
  ((l.dropWhile fun c => c == '/').reverse.dropWhile fun c => c == '/').reverse

/-- Rust `str::split('/')`: always yields at least one (possibly empty)
segment; adjacent separators yield empty segments. -/
def splitChar (c : Char) : List Char → List (List Char)
  | [] => [[]]
  | x :: xs =>
    if x = c then [] :: splitChar c xs
    else
      match splitChar c xs with
      | [] => [[x]]
      | h :: t => (x :: h) :: t

/-- Rust `Vec::join("/")`. -/
def joinSlash (segs : List (List Char)) : List Char :=
  (segs.intersperse ['/']).flatten

/-- The character class admitted in a category segment
(`storage.rs` line 171): alphanumeric, dash or underscore. Rust
`char::is_alphanumeric` is modelled by its ASCII fragment
`Char.isAlphanum`; every input in the claims is ASCII. -/
def isSegmentChar (c : Char) : Bool := c.isAlphanum || c == '-' || c == '_'

/-- The per-segment body of the validation loop in
`Storage::validate_category` (`storage.rs` lines 163-182): trim the
segment, reject empty segments, reject characters outside the charset,
reject the traversal segments `.` and `..`. -/
def checkSegment (seg : List Char) : Except String Unit :=
  let seg := rustTrimList seg
  if seg.isEmpty then
    .error "Category path contains empty segments"
  else if ¬ seg.all isSegmentChar then
    .error "Category segment contains invalid characters. Only alphanumeric, dash, and underscore are allowed."
  else if seg = ['.', '.'] ∨ seg = ['.'] then
    .error "Category path cannot contain . or .."
  else .ok ()

/-- The `for segment in cat.split('/')` loop of
`Storage::validate_category`: first failing segment aborts. -/
def checkSegments : List (List Char) → Except String Unit
  | [] => .ok ()
  | s :: rest =>
    match checkSegment s with
    | .error e => .error e
    | .ok _ => checkSegments rest

/-- `Storage::validate_category` (`storage.rs` lines 153-194). -/
def validate_category (category : Option String) :
    Except String (Option String) :=
  match category with
  | none => .ok none
  | some cat =>
    let catT := trimMatchesSlash (rustTrimList cat.data)
    if catT.isEmpty then .ok none
    else
      let segs := splitChar '/' catT
      match checkSegments segs with
      | .error e => .error e
      | .ok _ =>
        let normalized :=
          ((segs.map rustTrimList).filter fun s => !s.isEmpty)
        .ok (some ⟨joinSlash normalized⟩)

/-- `Storage::build_key_path` (`storage.rs` lines 197-213): validate the
category, reject key names containing a path separator, build the
deterministic path. -/
def build_key_path (key : String) (category : Option String) :
    Except String String :=
  match validate_category category with
  | .error e => .error e
  | .ok validated_category =>
    if key.data.contains '/' || key.data.contains '\\' then
      .error "Key name cannot contain path separators. Use --category for organizing keys."
    else
      match validated_category with
      | some cat => .ok ("keys/" ++ cat ++ "/" ++ key ++ ".json")
      | none => .ok ("keys/" ++ key ++ ".json")

/-- Spec-side per-segment predicate, following the spec's words: each
category segment, after trimming, is non-empty, drawn from
alphanumeric/dash/underscore, and is neither `.` nor `..`. -/
def segmentOkB (seg : List Char) : Bool :=
  let t := rustTrimList seg
  !t.isEmpty && t.all isSegmentChar && !(t == ['.', '.'] || t == ['.'])

/-- Spec-side category validity: after trimming whitespace and outer
slashes the category is empty (treated as absent) or every slash-separated
segment satisfies `segmentOkB`. -/
def categoryOk : Option String → Bool
  | none => true
  | some cat =>
    let catT := trimMatchesSlash (rustTrimList cat.data)
    catT.isEmpty || (splitChar '/' catT).all segmentOkB

theorem checkSegment_ok_iff (s : List Char) :
    checkSegment s = .ok () ↔ segmentOkB s = true := by
  simp only [checkSegment, segmentOkB]
  split_ifs with h1 h2 h3 <;> simp_all
  tauto

theorem checkSegments_ok_iff (l : List (List Char)) :
    checkSegments l = .ok () ↔ l.all segmentOkB = true := by
  induction l with
  | nil => simp [checkSegments]
  | cons s rest ih =>
    simp only [checkSegments, List.all_cons, Bool.and_eq_true]
    cases hs : checkSegment s with
    | error e =>
      have : ¬ segmentOkB s = true := by
        intro h
        rw [← checkSegment_ok_iff] at h
        simp [hs] at h
      simp [this]
    | ok u =>
      cases u
      rw [checkSegment_ok_iff] at hs
      simp [hs, ih]

theorem validate_category_isOk_iff (c : Option String) :
    (∃ r, validate_category c = .ok r) ↔ categoryOk c = true := by
  cases c with
  | none => simp [validate_category, categoryOk]
  | some cat =>
    simp only [validate_category, categoryOk]
    by_cases h : (trimMatchesSlash (rustTrimList cat.data)).isEmpty
    · simp [h]
    · simp only [h, if_false, Bool.false_or]
      cases hc : checkSegments (splitChar '/'
          (trimMatchesSlash (rustTrimList cat.data))) with
      | error e =>
        have : ¬ (splitChar '/'
            (trimMatchesSlash (rustTrimList cat.data))).all segmentOkB
              = true := by
          intro hall
          rw [← checkSegments_ok_iff] at hall
          simp [hc] at hall
        simp [hc, this]
      | ok u =>
        cases u
        rw [checkSegments_ok_iff] at hc
        simp [hc]

theorem build_key_path_ok_iff (key : String) (cat : Option String) :
    (∃ p, build_key_path key cat = .ok p) ↔
      ('/' ∉ key.data ∧ '\\' ∉ key.data ∧ categoryOk cat = true) := by
  rw [← validate_category_isOk_iff]
  unfold build_key_path
  cases hv : validate_category cat with
  | error e => simp [hv]
  | ok vc =>
    by_cases h1 : '/' ∈ key.data <;>
      by_cases h2 : '\\' ∈ key.data <;>
      cases vc <;> simp [hv, h1, h2]

/-- C7: the claim that key-path construction succeeds exactly when the
name (and every category segment) is non-empty and drawn from alphanumeric,
dash and underscore is false on the code: `build_key_path` only rejects
key names containing a path separator, so the key name `bad@char` — whose
character `@` is outside the claimed charset — is accepted and yields
`keys/bad@char.json`. -/
theorem C7_counterexample :
    build_key_path "bad@char" none = .ok "keys/bad@char.json" ∧
    isSegmentChar '@' = false := by decide

/-- C7 (amended): key-path construction succeeds exactly when every
category segment (after trimming) is non-empty, drawn from
alphanumeric/dash/underscore and not a `.`/`..` traversal segment, and the
key name contains neither '/' nor a backslash — the key name's characters
are not otherwise validated. Leading/trailing whitespace and slashes of
the category are normalized away and the path is the deterministic
`keys/<category-segments>/<name>.json` (`keys/<name>.json` without
category); `prod/api` normalizes to itself, `/leading/slash/` to
`leading/slash`, while `path/../x`, `a//b` and `bad@char` fail category
validation and a key name containing '/' fails even without a category. -/
theorem C7_path_construction_amended :
    (∀ (key : String) (cat : Option String),
      (∃ p, build_key_path key cat = .ok p) ↔
        ('/' ∉ key.data ∧ '\\' ∉ key.data ∧ categoryOk cat = true)) ∧
    validate_category (some "prod/api") = .ok (some "prod/api") ∧
    validate_category (some "/leading/slash/") = .ok (some "leading/slash") ∧
    build_key_path "api" (some "prod") = .ok "keys/prod/api.json" ∧
    validate_category (some "path/../x") =
      .error "Category segment contains invalid characters. Only alphanumeric, dash, and underscore are allowed." ∧
    validate_category (some "a//b") =
      .error "Category path contains empty segments" ∧
    validate_category (some "bad@char") =
      .error "Category segment contains invalid characters. Only alphanumeric, dash, and underscore are allowed." ∧
    build_key_path "a/b" none =
      .error "Key name cannot contain path separators. Use --category for organizing keys." := by
  refine ⟨build_key_path_ok_iff, ?_⟩
  decide

/-- `Config` (`config.rs` lines 7-11) together with the `encrypted_lmk`
field. That field and its accessor `get_or_create_lmk_with_profile` are
referenced by `main.rs` and `auth.rs` but are absent from the shipped
`config.rs`; the field is modelled from the spec (§3 Local Key-Wrap
Secret: persisted locally as an Encrypted Record keyed by the master
password). -/
structure Config where
  encrypted_repo_name : Option EncryptedBlob
  encrypted_lmk : Option EncryptedBlob
deriving DecidableEq

/-- The `Default` derive for `Config`: every field absent. -/
def Config.default : Config := ⟨none, none⟩

/-- `GlobalConfig` (`config.rs` lines 14-18). -/
structure GlobalConfig where
  active_profile : Option String
deriving DecidableEq

/-- The `Default` derive for `GlobalConfig`. -/
def GlobalConfig.default : GlobalConfig := ⟨none⟩

/-- The on-disk content of a profile's `config.json`: `none` when the file
does not exist, otherwise its (idealised) JSON content. -/
abbrev ConfigFile := Option (Serde Config)

/-- `Config::load_with_profile` (`config.rs` lines 72-81): an absent file
yields the default config; a present file is parsed with
`serde_json::from_str(&content).unwrap_or_default()`, so malformed JSON
silently yields the default config as well. Filesystem read errors are not
modelled (they would propagate). -/
def Config.load_with_profile (file : ConfigFile) : Except String Config :=
  match file with
  | none => .ok Config.default
  | some content =>
    .ok (match serdeDe content with
      | some cfg => cfg
      | none => Config.default)

/-- `Config::save_with_profile` (`config.rs` lines 84-89): serialise the
config and write it; yields the new file content. -/
def Config.save_with_profile (cfg : Config) : ConfigFile :=
  some (serdeSer cfg)

/-- `GlobalConfig::load` (`config.rs` lines 127-135): same
`unwrap_or_default` shape as `Config::load_with_profile`. -/
def GlobalConfig.load (file : Option (Serde GlobalConfig)) :
    Except String GlobalConfig :=
  match file with
  | none => .ok GlobalConfig.default
  | some content =>
    .ok (match serdeDe content with
      | some cfg => cfg
      | none => GlobalConfig.default)

/-- `Config::get_repo_name_with_profile` (`config.rs` lines 92-106). -/
def Config.get_repo_name_with_profile (file : ConfigFile)
    (password : String) : Except String String :=
  match Config.load_with_profile file with
  | .error e => .error e
  | .ok config =>
    match config.encrypted_repo_name with
    | some blob =>
      match decrypt blob password with
      | .error _ =>
        .error "Incorrect master password or corrupted local configuration."
      | .ok decrypted =>
        match bytesToStr decrypted with
        | some s => .ok s
        | none => .error "Repo name is not valid UTF-8"
    | none =>
      .error "Repository not configured. Please run init to set up your storage repository."

/-- C8: the claim is false on the code: loading a persisted `config.json`
whose JSON is malformed does not produce a `CorruptState` error — the
parse failure is absorbed by `unwrap_or_default()` and the loader returns
the default (empty) configuration. Concrete input: a config file holding
the unparsable text `not a json`. -/
theorem C8_counterexample :
    Config.load_with_profile (some (.invalid "not a json")) =
      .ok Config.default ∧
    Config.default.encrypted_repo_name = none ∧
    Config.default.encrypted_lmk = none := by decide

/-- C8 (amended): loading a persisted local configuration file whose JSON
is malformed silently yields the default (empty) configuration — for both
the profile config and the global config — rather than reporting a
distinct error. -/
theorem C8_malformed_config_defaults (raw : String) :
    Config.load_with_profile (some (.invalid raw)) = .ok Config.default ∧
    GlobalConfig.load (some (.invalid raw)) = .ok GlobalConfig.default := by
  constructor <;> rfl

/-- A write performed by the credential-vault / rotation flows: a save of
the profile `config.json`, a write of the encrypted token file
`github_token.json`, or a PUT of the remote `.axkeystore/master_key.json`
blob. -/
inductive WriteEvent where
  | localSave (cfg : Config)
  | tokenSave (blob : EncryptedBlob)
  | remoteSave (blob : EncryptedBlob)
deriving DecidableEq

/-- Modelled from the spec: `Config::get_or_create_lmk_with_profile` is
called from `main.rs` and `auth.rs` but missing from the shipped
`config.rs`. Spec §4.2 `Bootstrap(profile, password) -> LMK`: if a local
Encrypted Record for this profile exists, decrypt it with `password`
(failing on AEAD failure); else generate new random key material, wrap it
with `password`, persist it, and return it. The fresh key material and the
encryption randomness are the explicit `genLmk` / `saltR` / `nonceR`
arguments; the returned triple is the LMK, the resulting config file and
the writes performed. -/
def Config.get_or_create_lmk_with_profile (file : ConfigFile)
    (password : String) (genLmk : String) (saltR : String) (nonceR : Bytes) :
    Except String (String × ConfigFile × List WriteEvent) :=
  match Config.load_with_profile file with
  | .error e => .error e
  | .ok config =>
    match config.encrypted_lmk with
    | some blob =>
      match decrypt blob password with
      | .error _ => .error "Incorrect master password."
      | .ok decrypted =>
        match bytesToStr decrypted with
        | some lmk => .ok (lmk, file, [])
        | none => .error "LMK is not valid UTF-8"
    | none =>
      let encrypted := encrypt (strToBytes genLmk) password saltR nonceR
      let config2 := { config with encrypted_lmk := some encrypted }
      .ok (genLmk, Config.save_with_profile config2, [.localSave config2])

/-- `save_token_to_path` (`auth.rs` lines 185-205): encrypt the token
under the given key and write the resulting record at the token path; the
model yields the written blob. -/
def save_token_to_path (token : String) (key : String) (saltR : String)
    (nonceR : Bytes) : EncryptedBlob :=
  encrypt (strToBytes token) key saltR nonceR

/-- `save_token_with_profile` (`auth.rs` lines 176-182): obtain the LMK
for this profile (creating it if needed), then persist the token encrypted
under that LMK at the profile-scoped token path. Returns the token blob
written to `github_token.json`, the resulting config file and the write
events. -/
def save_token_with_profile (file : ConfigFile) (token password : String)
    (genLmk : String) (saltL : String) (nonceL : Bytes) (saltT : String)
    (nonceT : Bytes) :
    Except String (EncryptedBlob × ConfigFile × List WriteEvent) :=
  match Config.get_or_create_lmk_with_profile file password genLmk saltL
      nonceL with
  | .error e => .error e
  | .ok (lmk, file2, evs) =>
    let blob := save_token_to_path token lmk saltT nonceT
    .ok (blob, file2, evs ++ [.tokenSave blob])

/-- The concrete profile state used in the C6 counterexample: an LMK whose
key material is `lmk-material`, wrapped under the master password
`master-pw`. -/
def c6File : ConfigFile :=
  some (.valid
    { encrypted_repo_name := none,
      encrypted_lmk :=
        some (encrypt (strToBytes "lmk-material") "master-pw" "s1"
          (List.replicate 24 0)) })

/-- The token blob that `save_token_with_profile` writes in the C6
counterexample run. -/
def c6Blob : EncryptedBlob :=
  encrypt (strToBytes "tok-123") "lmk-material" "s3" (List.replicate 24 1)

/-- C6: the claim is false on the code: `save_token_with_profile` wraps
the bearer token with the LMK, not directly with the master password. In
the concrete run below (LMK key material `lmk-material` stored under
master password `master-pw`), the written token record fails to decrypt
under the master password and decrypts under the LMK. -/
theorem C6_counterexample :
    save_token_with_profile c6File "tok-123" "master-pw" "gen" "s2"
        (List.replicate 24 0) "s3" (List.replicate 24 1) =
      .ok (c6Blob, c6File, [.tokenSave c6Blob]) ∧
    decrypt c6Blob "master-pw" = .error "Decryption failed - wrong password?" ∧
    decrypt c6Blob "lmk-material" = .ok (strToBytes "tok-123") := by decide

/-- C6 (amended): `StoreToken` (`save_token_with_profile`) encrypts the
bearer token with the LMK obtained for the profile (itself unwrapped by —
but distinct from — the master password), not directly with the master
password, before persisting it at the profile-scoped path: whenever the
LMK differs from the password, the persisted record decrypts under the LMK
and not under the master password. -/
theorem C6_token_wrapped_with_lmk (file : ConfigFile)
    (token password genLmk saltL : String) (nonceL : Bytes) (saltT : String)
    (nonceT : Bytes) (lmk : String) (file2 : ConfigFile)
    (evs : List WriteEvent)
    (h : Config.get_or_create_lmk_with_profile file password genLmk saltL
      nonceL = .ok (lmk, file2, evs))
    (hne : lmk ≠ password) (hn : nonceT.length = 24) :
    save_token_with_profile file token password genLmk saltL nonceL saltT
        nonceT =
      .ok (encrypt (strToBytes token) lmk saltT nonceT, file2,
        evs ++ [.tokenSave (encrypt (strToBytes token) lmk saltT nonceT)]) ∧
    decrypt (encrypt (strToBytes token) lmk saltT nonceT) password =
      .error "Decryption failed - wrong password?" ∧
    decrypt (encrypt (strToBytes token) lmk saltT nonceT) lmk =
      .ok (strToBytes token) := by
  refine ⟨?_, ?_, ?_⟩
  · simp [save_token_with_profile, h, save_token_to_path]
  · have hw := decrypt_encrypt_wrong_password (strToBytes token) lmk
      password saltT nonceT hne
    rw [hw]
    simp [hn]
  · exact decrypt_encrypt _ _ _ _ hn

theorem C6_token_wrapped_with_lmk_witness :
    save_token_with_profile c6File "tkn" "master-pw" "gen" "s2"
        (List.replicate 24 0) "s4" (List.replicate 24 2) =
      .ok (encrypt (strToBytes "tkn") "lmk-material" "s4"
          (List.replicate 24 2), c6File,
        [.tokenSave (encrypt (strToBytes "tkn") "lmk-material" "s4"
          (List.replicate 24 2))]) ∧
    decrypt (encrypt (strToBytes "tkn") "lmk-material" "s4"
        (List.replicate 24 2)) "master-pw" =
      .error "Decryption failed - wrong password?" ∧
    decrypt (encrypt (strToBytes "tkn") "lmk-material" "s4"
        (List.replicate 24 2)) "lmk-material" = .ok (strToBytes "tkn") :=
  C6_token_wrapped_with_lmk c6File "tkn" "master-pw" "gen" "s2"
    (List.replicate 24 0) "s4" (List.replicate 24 2) "lmk-material" c6File
    [] (by decide) (by decide) (by decide)

/-- A file currently stored at a path of the remote repository: its
(decoded) content and its version token — the blob SHA the backend issues
for the current content. -/
structure RemoteFile where
  content : Bytes
  sha : String
deriving DecidableEq

/-- Outcome of a GET of a path on the remote contents API: the current
file, a 404 (path never written), or a transport/API failure. -/
inductive GetResult where
  | found (f : RemoteFile)
  | absent
  | failed (e : String)
deriving DecidableEq

/-- The remote backend as seen during one `Storage` operation: the
response to each path's contents GET, and whether write requests (PUT /
DELETE) are accepted by the backend. -/
structure Remote where
  files : String → GetResult
  writeOk : Bool

/-- A request issued to the remote backend. -/
inductive Request where
  | getContents (path : String)
  | putFile (path : String) (content : Bytes) (sha : Option String)
      (message : String)
  | deleteFile (path : String) (sha : String) (message : String)
deriving DecidableEq

/-- The commit message of `Storage::save_blob`
(`storage.rs` lines 441-444). -/
def updateMessage (key : String) (category : Option String) : String :=
  match category with
  | some cat =>
    "Update key: " ++ (⟨trimMatchesSlash cat.data⟩ : String) ++ "/" ++ key
  | none => "Update key: " ++ key

/-- The commit message of `Storage::delete_blob`
(`storage.rs` lines 484-487). -/
def deleteMessage (key : String) (category : Option String) : String :=
  match category with
  | some cat =>
    "Delete key: " ++ (⟨trimMatchesSlash cat.data⟩ : String) ++ "/" ++ key
  | none => "Delete key: " ++ key

/-- `Storage::get_blob` (`storage.rs` lines 301-335): build the key path
and GET it; a 404 yields `none` (not an error), other failures are
errors, success yields the content and its version token. The returned
pair carries the requests issued. -/
def get_blob (r : Remote) (key : String) (category : Option String) :
    Except String (Option (Bytes × String)) × List Request :=
  match build_key_path key category with
  | .error e => (.error e, [])
  | .ok path =>
    match r.files path with
    | .absent => (.ok none, [.getContents path])
    | .failed e => (.error e, [.getContents path])
    | .found f => (.ok (some (f.content, f.sha)), [.getContents path])

/-- `Storage::save_blob` (`storage.rs` lines 425-467): read the current
version token with `if let Ok(Some((_, sha))) = self.get_blob(..)` — any
read error or absence alike yields no token — then PUT the content with
that optional token. -/
def save_blob (r : Remote) (key : String) (data : Bytes)
    (category : Option String) : Except String Unit × List Request :=
  match build_key_path key category with
  | .error e => (.error e, [])
  | .ok path =>
    let pre := get_blob r key category
    let sha : Option String :=
      match pre.1 with
      | .ok (some (_, s)) => some s
      | _ => none
    let req := Request.putFile path data sha (updateMessage key category)
    if r.writeOk then (.ok (), pre.2 ++ [req])
    else (.error "Failed to save key", pre.2 ++ [req])

/-- `Storage::delete_blob` (`storage.rs` lines 470-513): read the current
file to obtain its version token (read errors propagate via `?`); return
`false` without any further request when the path does not exist;
otherwise DELETE with the current token, returning `true` on success. -/
def delete_blob (r : Remote) (key : String) (category : Option String) :
    Except String Bool × List Request :=
  match build_key_path key category with
  | .error e => (.error e, [])
  | .ok path =>
    let pre := get_blob r key category
    match pre.1 with
    | .error e => (.error e, pre.2)
    | .ok none => (.ok false, pre.2)
    | .ok (some (_, sha)) =>
      let req := Request.deleteFile path sha (deleteMessage key category)
      if r.writeOk then (.ok true, pre.2 ++ [req])
      else (.error "Failed to delete key", pre.2 ++ [req])

/-- C9: `delete_blob` on a path that does not exist returns `false` having
issued only the contents GET — no write or delete request; on an existing
path it issues a DELETE supplying that path's current version token and
returns `true` when the backend accepts it. -/
theorem C9_delete_semantics (r : Remote) (key : String)
    (cat : Option String) (path : String)
    (hp : build_key_path key cat = .ok path) :
    (r.files path = .absent →
      delete_blob r key cat = (.ok false, [.getContents path])) ∧
    (∀ f, r.files path = .found f → r.writeOk = true →
      delete_blob r key cat =
        (.ok true, [.getContents path,
          .deleteFile path f.sha (deleteMessage key cat)])) := by
  constructor
  · intro h
    simp [delete_blob, get_blob, hp, h]
  · intro f h hw
    simp [delete_blob, get_blob, hp, h, hw]

/-- The remote repository of the C9 witness: `keys/gone.json` was never
written, `keys/here.json` holds a file with version token `sha7`. -/
def c9Remote : Remote :=
  { files := fun p =>
      if p = "keys/gone.json" then .absent
      else if p = "keys/here.json" then .found ⟨[7], "sha7"⟩
      else .failed "unexpected path",
    writeOk := true }

theorem C9_delete_semantics_witness :
    delete_blob c9Remote "gone" none =
      (.ok false, [.getContents "keys/gone.json"]) ∧
    delete_blob c9Remote "here" none =
      (.ok true, [.getContents "keys/here.json",
        .deleteFile "keys/here.json" "sha7" (deleteMessage "here" none)]) :=
  ⟨(C9_delete_semantics c9Remote "gone" none "keys/gone.json"
      (by decide)).1 (by decide),
   (C9_delete_semantics c9Remote "here" none "keys/here.json"
      (by decide)).2 ⟨[7], "sha7"⟩ (by decide) rfl⟩

/-- C10: when the preliminary read of the current version token inside
`save_blob` fails with an error (rather than the path being absent), the
error is swallowed: the PUT is issued with no version token, exactly as
for a new path, and the operation's outcome is that of the PUT alone — the
read error is never propagated to the caller. -/
theorem C10_save_blob_swallows_read_error (r : Remote) (key : String)
    (data : Bytes) (cat : Option String) (path e : String)
    (hp : build_key_path key cat = .ok path)
    (hf : r.files path = .failed e) :
    save_blob r key data cat =
      ((if r.writeOk then .ok () else .error "Failed to save key"),
       [.getContents path,
        .putFile path data none (updateMessage key cat)]) := by
  cases hw : r.writeOk <;> simp [save_blob, get_blob, hp, hf, hw]

/-- The remote of the C10 witness: the GET of `keys/k.json` fails with a
transport error, writes are accepted. -/
def c10Remote : Remote :=
  { files := fun _ => .failed "HTTP 500", writeOk := true }

theorem C10_save_blob_swallows_read_error_witness :
    save_blob c10Remote "k" [9] none =
      (.ok (), [.getContents "keys/k.json",
        .putFile "keys/k.json" [9] none (updateMessage "k" none)]) :=
  C10_save_blob_swallows_read_error c10Remote "k" [9] none "keys/k.json"
    "HTTP 500" (by decide) rfl

/-- The remote master-key slot (`.axkeystore/master_key.json`) as seen by
`Storage::get_master_key_blob` (`storage.rs` lines 216-247): the
(idealised JSON) stored bytes, absence (404), or a fetch failure. -/
inductive MasterKeySlot where
  | found (data : Serde EncryptedBlob)
  | absent
  | failed (e : String)
deriving DecidableEq

/-- The remote backend for master-key operations: the slot content and
whether the PUT inside `Storage::save_master_key_blob`
(`storage.rs` lines 250-298) is accepted. -/
structure MkRemote where
  masterKey : MasterKeySlot
  writeOk : Bool
deriving DecidableEq

/-- `get_or_init_master_key` (`main.rs` lines 122-151): fetch the remote
master-key blob (fetch errors propagate); if present, parse it and decrypt
it with the password — an AEAD failure is the "incorrect master password"
error; if absent, generate fresh key material, wrap it under the password
and write it to the remote path before returning it. Returns the key, the
resulting remote state and the writes performed. -/
def get_or_init_master_key (r : MkRemote) (password : String)
    (seed : Fin 36 → Fin 62) (saltR : String) (nonceR : Bytes) :
    Except String (String × MkRemote × List WriteEvent) :=
  match r.masterKey with
  | .failed e => .error e
  | .found data =>
    match serdeDe data with
    | none => .error "Failed to parse master key blob from GitHub"
    | some encrypted =>
      match decrypt encrypted password with
      | .ok decrypted =>
        match bytesToStr decrypted with
        | some s => .ok (s, r, [])
        | none => .error "Master key is not valid UTF-8"
      | .error _ =>
        .error "Incorrect master password. Please verify your credentials."
  | .absent =>
    let master_key := generate_master_key seed
    let encrypted := encrypt (strToBytes master_key) password saltR nonceR
    let json_blob := serdeSer encrypted
    if r.writeOk then
      .ok (master_key, { r with masterKey := .found json_blob },
        [.remoteSave encrypted])
    else .error "Failed to save master key"

/-- C5: the claim of "at least 256 bits of random key material" is false
on the code: `generate_master_key` draws 36 characters from a 62-character
alphabet, so across every possible draw of its random source it can
produce at most `62 ^ 36 < 2 ^ 256` distinct key strings — strictly fewer
than 256 bits of randomness. -/
theorem C5_counterexample :
    (Finset.univ.image generate_master_key).card < 2 ^ 256 := by
  calc (Finset.univ.image generate_master_key).card
      ≤ Fintype.card (Fin 36 → Fin 62) := by
        rw [← Finset.card_univ]
        exact Finset.card_image_le
    _ = 62 ^ 36 := by rw [Fintype.card_fun]; simp
    _ < 2 ^ 256 := by norm_num

theorem masterKeyCharset_getD_alphanum (n : Nat) :
    (masterKeyCharset.getD n 'A').isAlphanum = true := by
  rcases h : masterKeyCharset.get? n with _ | c
  · simp [List.getD_eq_getElem?_getD, ← List.get?_eq_getElem?, h]
  · have hc : c ∈ masterKeyCharset := List.get?_mem h
    have hall : masterKeyCharset.all Char.isAlphanum = true := by decide
    rw [List.getD_eq_getElem?_getD, ← List.get?_eq_getElem?, h]
    exact List.all_eq_true.mp hall c hc

/-- C5 (amended): when no DEK exists at the remote path,
`get_or_init_master_key` generates a fresh 36-character random
alphanumeric key string — at most `62 ^ 36 < 2 ^ 256` distinct values,
i.e. fewer than 256 bits of randomness (288 bits of rendered string) —
wraps it under the password and writes it to the remote path before
returning it. -/
theorem C5_dek_generation_amended (r : MkRemote) (password : String)
    (seed : Fin 36 → Fin 62) (saltR : String) (nonceR : Bytes)
    (ha : r.masterKey = .absent) (hw : r.writeOk = true) :
    get_or_init_master_key r password seed saltR nonceR =
      .ok (generate_master_key seed,
        { r with masterKey := .found (serdeSer (encrypt
            (strToBytes (generate_master_key seed)) password saltR
            nonceR)) },
        [.remoteSave (encrypt (strToBytes (generate_master_key seed))
          password saltR nonceR)]) ∧
    (generate_master_key seed).length = 36 ∧
    (generate_master_key seed).data.all Char.isAlphanum = true := by
  refine ⟨?_, ?_, ?_⟩
  · simp [get_or_init_master_key, ha, hw]
  · show ((List.finRange 36).map _).length = 36
    simp
  · rw [List.all_eq_true]
    intro c hc
    simp only [generate_master_key, List.mem_map] at hc
    obtain ⟨i, _, rfl⟩ := hc
    exact masterKeyCharset_getD_alphanum (seed i).val

theorem C5_dek_generation_amended_witness :
    get_or_init_master_key ⟨.absent, true⟩ "pw0" (fun _ => 0) "s0"
        (List.replicate 24 3) =
      .ok (generate_master_key (fun _ => 0),
        ⟨.found (serdeSer (encrypt
            (strToBytes (generate_master_key (fun _ => 0))) "pw0" "s0"
            (List.replicate 24 3))), true⟩,
        [.remoteSave (encrypt (strToBytes (generate_master_key (fun _ => 0)))
          "pw0" "s0" (List.replicate 24 3))]) ∧
    (generate_master_key (fun _ => 0)).length = 36 ∧
    (generate_master_key (fun _ => 0)).data.all Char.isAlphanum = true :=
  C5_dek_generation_amended ⟨.absent, true⟩ "pw0" (fun _ => 0) "s0"
    (List.replicate 24 3) rfl rfl

/-- The state touched by the `ResetPassword` command
(`main.rs` lines 565-646): the local profile config file, the remote
master-key slot, and whether `Storage::new_with_profile` (token decryption
plus the user-info request) succeeds — its failure is swallowed by the
`if let Ok(storage)` in `main.rs`. -/
structure ResetWorld where
  localFile : ConfigFile
  remote : MkRemote
  storageOk : Bool
deriving DecidableEq

/-- The random draws a `ResetPassword` run may consume: fresh LMK key
material and wrap randomness should the LMK have to be created (step 1),
and salt/nonce pairs for the DEK re-wrap (step 4) and the LMK re-wrap
(step 5). -/
structure ResetRand where
  lmkGen : String
  saltL : String
  nonceL : Bytes
  saltD : String
  nonceD : Bytes
  saltN : String
  nonceN : Bytes
deriving DecidableEq

/-- Outcome of a `ResetPassword` run: the state at exit, the writes
performed up to that point, and the command's result (`error` models both
the `std::process::exit(1)` paths and the `?` failure paths). -/
structure ResetOutcome where
  world : ResetWorld
  events : List WriteEvent
  result : Except String Unit
deriving DecidableEq

/-- `Commands::ResetPassword` (`main.rs` lines 565-646). Step 1 verifies
the old password by unwrapping (or, if absent, creating) the LMK; failure
aborts. Step 2 tries to retrieve the remote master key: the repo-name
lookup, the storage construction, the fetch and the decryption are all
`if let Ok` — their failures leave `rmk_data` empty and the run continues
— while the JSON parse and the UTF-8 decode use `?` and propagate. Step 3,
the interactive prompt loop, only ever exits with a `new_password` of at
least 8 characters that differs from `old_password`; it is modelled by the
`new_password` argument. Step 4 re-wraps and writes the remote master key
when it was retrieved, aborting (before any local write) if the remote
write fails. Step 5 re-wraps the LMK under the new password and saves the
local config. -/
def reset_password (w : ResetWorld) (old_password new_password : String)
    (rnd : ResetRand) : ResetOutcome :=
  match Config.get_or_create_lmk_with_profile w.localFile old_password
      rnd.lmkGen rnd.saltL rnd.nonceL with
  | .error _ => ⟨w, [], .error "Incorrect old master password."⟩
  | .ok (lmk, file1, ev1) =>
    let w1 : ResetWorld := { w with localFile := file1 }
    let rmkStep : Except String (Option String) :=
      match Config.get_repo_name_with_profile w1.localFile old_password with
      | .error _ => .ok none
      | .ok _repo =>
        if w1.storageOk = false then .ok none
        else
          match w1.remote.masterKey with
          | .absent => .ok none
          | .failed _ => .ok none
          | .found data =>
            match serdeDe data with
            | none => .error "Failed to parse master key blob"
            | some encrypted =>
              match decrypt encrypted old_password with
              | .error _ => .ok none
              | .ok decrypted =>
                match bytesToStr decrypted with
                | none => .error "Master key is not valid UTF-8"
                | some rmk => .ok (some rmk)
    match rmkStep with
    | .error e => ⟨w1, ev1, .error e⟩
    | .ok rmk_data =>
      let step4 : Except String (MkRemote × List WriteEvent) :=
        match rmk_data with
        | none => .ok (w1.remote, [])
        | some rmk =>
          let encrypted_rmk :=
            encrypt (strToBytes rmk) new_password rnd.saltD rnd.nonceD
          if w1.remote.writeOk then
            .ok ({ w1.remote with
              masterKey := .found (serdeSer encrypted_rmk) },
              [.remoteSave encrypted_rmk])
          else .error "Failed to update remote master key on GitHub"
      match step4 with
      | .error e => ⟨w1, ev1, .error e⟩
      | .ok (remote2, ev2) =>
        let encrypted_lmk :=
          encrypt (strToBytes lmk) new_password rnd.saltN rnd.nonceN
        match Config.load_with_profile w1.localFile with
        | .error e => ⟨{ w1 with remote := remote2 }, ev1 ++ ev2, .error e⟩
        | .ok cfg =>
          let cfg2 := { cfg with encrypted_lmk := some encrypted_lmk }
          let w2 : ResetWorld :=
            ⟨Config.save_with_profile cfg2, remote2, w1.storageOk⟩
          ⟨w2, ev1 ++ ev2 ++ [.localSave cfg2], .ok ()⟩

/-- The local config that step 5 of `ResetPassword` saves: the loaded
config with its LMK record replaced by the LMK re-wrapped under the new
password. -/
def rewrapConfig (cfg : Config) (lmk new : String) (rnd : ResetRand) :
    Config :=
  { cfg with
    encrypted_lmk := some (encrypt (strToBytes lmk) new rnd.saltN
      rnd.nonceN) }

/-- C1 counterexample data: the profile's LMK, wrapped under the old
master password `old-pass-123`. -/
def c1LmkBlob : EncryptedBlob :=
  encrypt (strToBytes "lmk-material") "old-pass-123" "sL"
    (List.replicate 24 0)

/-- C1 counterexample data: the configured repository name, wrapped under
the old master password. -/
def c1RepoBlob : EncryptedBlob :=
  encrypt (strToBytes "vault") "old-pass-123" "sR" (List.replicate 24 0)

/-- C1 counterexample data: the remote DEK, wrapped under a different
password `another-pw`, so unwrapping it under the old password fails. -/
def c1DekBlob : EncryptedBlob :=
  encrypt (strToBytes "dek-material") "another-pw" "sD"
    (List.replicate 24 0)

/-- C1 counterexample data: the full initial state — LMK and repo name
present locally, the remote DEK present but not decryptable under the old
password, storage reachable, remote writes accepted. -/
def c1World : ResetWorld :=
  ⟨some (.valid ⟨some c1RepoBlob, some c1LmkBlob⟩),
   ⟨.found (.valid c1DekBlob), true⟩, true⟩

/-- C1 counterexample data: the randomness the rotation run consumes. -/
def c1Rand : ResetRand :=
  ⟨"gen-lmk", "s1", List.replicate 24 0, "s2", List.replicate 24 0, "s3",
   List.replicate 24 0⟩

/-- The re-wrapped LMK record the C1 counterexample run writes. -/
def c1NewLmkBlob : EncryptedBlob :=
  encrypt (strToBytes "lmk-material") "new-pass-456" "s3"
    (List.replicate 24 0)

/-- The local config the C1 counterexample run saves. -/
def c1Cfg2 : Config := ⟨some c1RepoBlob, some c1NewLmkBlob⟩

/-- C1: the claim is false on the code: in this concrete run the remote
DEK fails to unwrap under the old password (it is wrapped under
`another-pw`), yet the rotation does not abort — it completes
successfully, performing a write that modifies the local LMK record. -/
theorem C1_counterexample :
    decrypt c1DekBlob "old-pass-123" =
      .error "Decryption failed - wrong password?" ∧
    (reset_password c1World "old-pass-123" "new-pass-456" c1Rand).result =
      .ok () ∧
    (reset_password c1World "old-pass-123" "new-pass-456" c1Rand).events =
      [.localSave c1Cfg2] ∧
    (reset_password c1World "old-pass-123" "new-pass-456"
      c1Rand).world.localFile ≠ c1World.localFile := by decide

/-- C1 (amended): `RotatePassword` first unwraps the LMK under
`oldPassword` and aborts with no writes if that fails; it then attempts to
unwrap the remote DEK under `oldPassword`, but a DEK unwrap failure does
not abort: the rotation continues, performs no remote write, and still
re-wraps the local LMK record under the new password. -/
theorem C1_rotation_unwrap_amended :
    (∀ (w : ResetWorld) (old new : String) (rnd : ResetRand)
      (cfg : Config) (blob : EncryptedBlob) (e : String),
      w.localFile = some (.valid cfg) →
      cfg.encrypted_lmk = some blob →
      decrypt blob old = .error e →
      reset_password w old new rnd =
        ⟨w, [], .error "Incorrect old master password."⟩) ∧
    (∀ (w : ResetWorld) (old new : String) (rnd : ResetRand)
      (cfg : Config) (lblob : EncryptedBlob) (lb : Bytes) (lmk : String)
      (rblob : EncryptedBlob) (rb : Bytes) (repo : String)
      (dblob : EncryptedBlob) (e : String),
      w.localFile = some (.valid cfg) →
      cfg.encrypted_lmk = some lblob →
      decrypt lblob old = .ok lb →
      bytesToStr lb = some lmk →
      cfg.encrypted_repo_name = some rblob →
      decrypt rblob old = .ok rb →
      bytesToStr rb = some repo →
      w.storageOk = true →
      w.remote.masterKey = .found (.valid dblob) →
      decrypt dblob old = .error e →
      reset_password w old new rnd =
        ⟨⟨Config.save_with_profile (rewrapConfig cfg lmk new rnd),
          w.remote, w.storageOk⟩,
         [.localSave (rewrapConfig cfg lmk new rnd)],
         .ok ()⟩) := by
  constructor
  · intro w old new rnd cfg blob e hfile hlmk hdec
    simp [reset_password, Config.get_or_create_lmk_with_profile,
      Config.load_with_profile, serdeDe, hfile, hlmk, hdec]
  · intro w old new rnd cfg lblob lb lmk rblob rb repo dblob e hfile hlmk
      hldec hlstr hrname hrdec hrstr hsok hmk hddec
    simp [reset_password, Config.get_or_create_lmk_with_profile,
      Config.get_repo_name_with_profile, Config.load_with_profile,
      Config.save_with_profile, rewrapConfig, serdeDe, hfile, hlmk, hldec,
      hlstr, hrname, hrdec, hrstr, hsok, hmk, hddec]

/-- C1 amended-theorem witness state: an LMK wrapped under a password
other than the one the rotation is given, so the LMK unwrap fails. -/
def c1BadLmkWorld : ResetWorld :=
  ⟨some (.valid ⟨none, some (encrypt (strToBytes "x") "other-pw" "s0"
    (List.replicate 24 0))⟩), ⟨.absent, true⟩, true⟩

theorem C1_rotation_unwrap_amended_witness :
    reset_password c1BadLmkWorld "oldpw-123" "newpw-456" c1Rand =
      ⟨c1BadLmkWorld, [], .error "Incorrect old master password."⟩ ∧
    reset_password c1World "old-pass-123" "new-pass-456" c1Rand =
      ⟨⟨Config.save_with_profile c1Cfg2, c1World.remote, true⟩,
       [.localSave c1Cfg2], .ok ()⟩ :=
  ⟨C1_rotation_unwrap_amended.1 c1BadLmkWorld "oldpw-123" "newpw-456"
      c1Rand ⟨none, some (encrypt (strToBytes "x") "other-pw" "s0"
        (List.replicate 24 0))⟩
      (encrypt (strToBytes "x") "other-pw" "s0" (List.replicate 24 0))
      "Decryption failed - wrong password?" rfl rfl (by decide),
   C1_rotation_unwrap_amended.2 c1World "old-pass-123" "new-pass-456"
      c1Rand ⟨some c1RepoBlob, some c1LmkBlob⟩ c1LmkBlob
      (strToBytes "lmk-material") "lmk-material" c1RepoBlob
      (strToBytes "vault") "vault" c1DekBlob
      "Decryption failed - wrong password?" rfl rfl (by decide)
      (by decide) rfl (by decide) (by decide) rfl rfl (by decide)⟩

/-- The re-wrapped remote master key that step 4 of `ResetPassword`
writes: the retrieved DEK key material, re-encrypted under the new
password. -/
def rewrapDek (rmk new : String) (rnd : ResetRand) : EncryptedBlob :=
  encrypt (strToBytes rmk) new rnd.saltD rnd.nonceD

theorem reset_password_remote_write_failure (w : ResetWorld)
    (old new : String) (rnd : ResetRand) (cfg : Config)
    (lblob : EncryptedBlob) (lb : Bytes) (lmk : String)
    (rblob : EncryptedBlob) (rb : Bytes) (repo : String)
    (dblob : EncryptedBlob) (db : Bytes) (rmk : String)
    (hfile : w.localFile = some (.valid cfg))
    (hlmk : cfg.encrypted_lmk = some lblob)
    (hldec : decrypt lblob old = .ok lb)
    (hlstr : bytesToStr lb = some lmk)
    (hrname : cfg.encrypted_repo_name = some rblob)
    (hrdec : decrypt rblob old = .ok rb)
    (hrstr : bytesToStr rb = some repo)
    (hsok : w.storageOk = true)
    (hmk : w.remote.masterKey = .found (.valid dblob))
    (hddec : decrypt dblob old = .ok db)
    (hdstr : bytesToStr db = some rmk)
    (hw : w.remote.writeOk = false) :
    reset_password w old new rnd =
      ⟨w, [], .error "Failed to update remote master key on GitHub"⟩ := by
  obtain ⟨lf, rem, sok⟩ := w
  simp only at hfile hsok hmk hw
  simp [reset_password, Config.get_or_create_lmk_with_profile,
    Config.get_repo_name_with_profile, Config.load_with_profile,
    serdeDe, hfile, hlmk, hldec, hlstr, hrname, hrdec, hrstr, hsok, hmk,
    hddec, hdstr, hw]

theorem reset_password_success (w : ResetWorld)
    (old new : String) (rnd : ResetRand) (cfg : Config)
    (lblob : EncryptedBlob) (lb : Bytes) (lmk : String)
    (rblob : EncryptedBlob) (rb : Bytes) (repo : String)
    (dblob : EncryptedBlob) (db : Bytes) (rmk : String)
    (hfile : w.localFile = some (.valid cfg))
    (hlmk : cfg.encrypted_lmk = some lblob)
    (hldec : decrypt lblob old = .ok lb)
    (hlstr : bytesToStr lb = some lmk)
    (hrname : cfg.encrypted_repo_name = some rblob)
    (hrdec : decrypt rblob old = .ok rb)
    (hrstr : bytesToStr rb = some repo)
    (hsok : w.storageOk = true)
    (hmk : w.remote.masterKey = .found (.valid dblob))
    (hddec : decrypt dblob old = .ok db)
    (hdstr : bytesToStr db = some rmk)
    (hw : w.remote.writeOk = true) :
    reset_password w old new rnd =
      ⟨⟨Config.save_with_profile (rewrapConfig cfg lmk new rnd),
        ⟨.found (serdeSer (rewrapDek rmk new rnd)), true⟩, w.storageOk⟩,
       [.remoteSave (rewrapDek rmk new rnd),
        .localSave (rewrapConfig cfg lmk new rnd)],
       .ok ()⟩ := by
  simp [reset_password, Config.get_or_create_lmk_with_profile,
    Config.get_repo_name_with_profile, Config.load_with_profile,
    Config.save_with_profile, rewrapConfig, rewrapDek, serdeDe, hfile,
    hlmk, hldec, hlstr, hrname, hrdec, hrstr, hsok, hmk, hddec, hdstr, hw]

/-- C2: during a password rotation in which both the LMK and the remote
DEK unwrap under the old password, the re-wrapped DEK is written to the
remote path before the re-wrapped LMK is persisted locally (the write
event list is exactly remote save followed by local save), the local write
happens only if the remote write succeeded, and on remote-write failure
the operation stops with the local state unchanged and no writes at
all. -/
theorem C2_remote_write_precedes_local (w : ResetWorld)
    (old new : String) (rnd : ResetRand) (cfg : Config)
    (lblob : EncryptedBlob) (lb : Bytes) (lmk : String)
    (rblob : EncryptedBlob) (rb : Bytes) (repo : String)
    (dblob : EncryptedBlob) (db : Bytes) (rmk : String)
    (hfile : w.localFile = some (.valid cfg))
    (hlmk : cfg.encrypted_lmk = some lblob)
    (hldec : decrypt lblob old = .ok lb)
    (hlstr : bytesToStr lb = some lmk)
    (hrname : cfg.encrypted_repo_name = some rblob)
    (hrdec : decrypt rblob old = .ok rb)
    (hrstr : bytesToStr rb = some repo)
    (hsok : w.storageOk = true)
    (hmk : w.remote.masterKey = .found (.valid dblob))
    (hddec : decrypt dblob old = .ok db)
    (hdstr : bytesToStr db = some rmk) :
    (w.remote.writeOk = false →
      reset_password w old new rnd =
        ⟨w, [], .error "Failed to update remote master key on GitHub"⟩) ∧
    (w.remote.writeOk = true →
      reset_password w old new rnd =
        ⟨⟨Config.save_with_profile (rewrapConfig cfg lmk new rnd),
          ⟨.found (serdeSer (rewrapDek rmk new rnd)), true⟩, w.storageOk⟩,
         [.remoteSave (rewrapDek rmk new rnd),
          .localSave (rewrapConfig cfg lmk new rnd)],
         .ok ()⟩) :=
  ⟨fun hw => reset_password_remote_write_failure w old new rnd cfg lblob
      lb lmk rblob rb repo dblob db rmk hfile hlmk hldec hlstr hrname
      hrdec hrstr hsok hmk hddec hdstr hw,
   fun hw => reset_password_success w old new rnd cfg lblob lb lmk rblob
      rb repo dblob db rmk hfile hlmk hldec hlstr hrname hrdec hrstr hsok
      hmk hddec hdstr hw⟩

/-- C2/C3 witness data: the remote DEK wrapped under the old master
password `old-pass-123`, as in a healthy repository. -/
def c2DekBlob : EncryptedBlob :=
  encrypt (strToBytes "dek-material") "old-pass-123" "sD"
    (List.replicate 24 0)

/-- C2/C3 witness data: LMK, repo name and DEK all unwrap under the old
password; remote writes accepted. -/
def c2World : ResetWorld :=
  ⟨some (.valid ⟨some c1RepoBlob, some c1LmkBlob⟩),
   ⟨.found (.valid c2DekBlob), true⟩, true⟩

/-- C2 witness data: same state but the remote rejects writes. -/
def c2WorldNoWrite : ResetWorld :=
  ⟨some (.valid ⟨some c1RepoBlob, some c1LmkBlob⟩),
   ⟨.found (.valid c2DekBlob), false⟩, true⟩

theorem C2_remote_write_precedes_local_witness :
    reset_password c2WorldNoWrite "old-pass-123" "new-pass-456" c1Rand =
      ⟨c2WorldNoWrite, [],
       .error "Failed to update remote master key on GitHub"⟩ ∧
    reset_password c2World "old-pass-123" "new-pass-456" c1Rand =
      ⟨⟨Config.save_with_profile
          (rewrapConfig ⟨some c1RepoBlob, some c1LmkBlob⟩ "lmk-material"
            "new-pass-456" c1Rand),
        ⟨.found (serdeSer (rewrapDek "dek-material" "new-pass-456"
          c1Rand)), true⟩, true⟩,
       [.remoteSave (rewrapDek "dek-material" "new-pass-456" c1Rand),
        .localSave (rewrapConfig ⟨some c1RepoBlob, some c1LmkBlob⟩
          "lmk-material" "new-pass-456" c1Rand)],
       .ok ()⟩ :=
  ⟨(C2_remote_write_precedes_local c2WorldNoWrite "old-pass-123"
      "new-pass-456" c1Rand ⟨some c1RepoBlob, some c1LmkBlob⟩ c1LmkBlob
      (strToBytes "lmk-material") "lmk-material" c1RepoBlob
      (strToBytes "vault") "vault" c2DekBlob (strToBytes "dek-material")
      "dek-material" rfl rfl (by decide) (by decide) rfl (by decide)
      (by decide) rfl rfl (by decide) (by decide)).1 rfl,
   (C2_remote_write_precedes_local c2World "old-pass-123" "new-pass-456"
      c1Rand ⟨some c1RepoBlob, some c1LmkBlob⟩ c1LmkBlob
      (strToBytes "lmk-material") "lmk-material" c1RepoBlob
      (strToBytes "vault") "vault" c2DekBlob (strToBytes "dek-material")
      "dek-material" rfl rfl (by decide) (by decide) rfl (by decide)
      (by decide) rfl rfl (by decide) (by decide)).2 rfl⟩

/-- C3: across a successful password rotation the DEK key bytes never
change. Before rotation, opening the remote master key under the old
password yields the key material `rmk`; the rotation replaces only the
wrapping Encrypted Record (the slot now holds `rmk` re-wrapped under the
new password); opening with the new password afterwards yields the
byte-identical key material `rmk` (with no further write), and opening
with the old password now fails with the incorrect-password error. -/
theorem C3_rotation_preserves_dek (w : ResetWorld)
    (old new : String) (rnd : ResetRand) (cfg : Config)
    (lblob : EncryptedBlob) (lb : Bytes) (lmk : String)
    (rblob : EncryptedBlob) (rb : Bytes) (repo : String)
    (dblob : EncryptedBlob) (db : Bytes) (rmk : String)
    (seed : Fin 36 → Fin 62) (saltR : String) (nonceR : Bytes)
    (hfile : w.localFile = some (.valid cfg))
    (hlmk : cfg.encrypted_lmk = some lblob)
    (hldec : decrypt lblob old = .ok lb)
    (hlstr : bytesToStr lb = some lmk)
    (hrname : cfg.encrypted_repo_name = some rblob)
    (hrdec : decrypt rblob old = .ok rb)
    (hrstr : bytesToStr rb = some repo)
    (hsok : w.storageOk = true)
    (hmk : w.remote.masterKey = .found (.valid dblob))
    (hddec : decrypt dblob old = .ok db)
    (hdstr : bytesToStr db = some rmk)
    (hw : w.remote.writeOk = true)
    (hne : new ≠ old)
    (hnd : rnd.nonceD.length = 24) :
    get_or_init_master_key w.remote old seed saltR nonceR =
      .ok (rmk, w.remote, []) ∧
    (reset_password w old new rnd).result = .ok () ∧
    (reset_password w old new rnd).world.remote.masterKey =
      .found (serdeSer (rewrapDek rmk new rnd)) ∧
    get_or_init_master_key (reset_password w old new rnd).world.remote new
        seed saltR nonceR =
      .ok (rmk, (reset_password w old new rnd).world.remote, []) ∧
    get_or_init_master_key (reset_password w old new rnd).world.remote old
        seed saltR nonceR =
      .error "Incorrect master password. Please verify your credentials." := by
  have hrun := reset_password_success w old new rnd cfg lblob lb lmk
    rblob rb repo dblob db rmk hfile hlmk hldec hlstr hrname hrdec hrstr
    hsok hmk hddec hdstr hw
  refine ⟨?_, ?_, ?_, ?_, ?_⟩
  · simp [get_or_init_master_key, hmk, serdeDe, hddec, hdstr]
  · rw [hrun]
  · rw [hrun]
  · rw [hrun]
    have hd := decrypt_encrypt (strToBytes rmk) new rnd.saltD rnd.nonceD
      hnd
    simp [get_or_init_master_key, serdeDe, serdeSer, rewrapDek, hd,
      bytesToStr_strToBytes]
  · rw [hrun]
    have hd := decrypt_encrypt_wrong_password (strToBytes rmk) new old
      rnd.saltD rnd.nonceD hne
    rw [if_pos hnd] at hd
    simp [get_or_init_master_key, serdeDe, serdeSer, rewrapDek, hd]

/-- The (unused, concrete) generator seed of the C3 witness. -/
def c3Seed : Fin 36 → Fin 62 := fun _ => 0

theorem C3_rotation_preserves_dek_witness :
    get_or_init_master_key c2World.remote "old-pass-123" c3Seed "s9"
        (List.replicate 24 4) =
      .ok ("dek-material", c2World.remote, []) ∧
    (reset_password c2World "old-pass-123" "new-pass-456" c1Rand).result =
      .ok () ∧
    (reset_password c2World "old-pass-123" "new-pass-456"
        c1Rand).world.remote.masterKey =
      .found (serdeSer (rewrapDek "dek-material" "new-pass-456" c1Rand)) ∧
    get_or_init_master_key (reset_password c2World "old-pass-123"
        "new-pass-456" c1Rand).world.remote "new-pass-456" c3Seed "s9"
        (List.replicate 24 4) =
      .ok ("dek-material", (reset_password c2World "old-pass-123"
        "new-pass-456" c1Rand).world.remote, []) ∧
    get_or_init_master_key (reset_password c2World "old-pass-123"
        "new-pass-456" c1Rand).world.remote "old-pass-123" c3Seed "s9"
        (List.replicate 24 4) =
      .error "Incorrect master password. Please verify your credentials." :=
  C3_rotation_preserves_dek c2World "old-pass-123" "new-pass-456" c1Rand
    ⟨some c1RepoBlob, some c1LmkBlob⟩ c1LmkBlob
    (strToBytes "lmk-material") "lmk-material" c1RepoBlob
    (strToBytes "vault") "vault" c2DekBlob (strToBytes "dek-material")
    "dek-material" c3Seed "s9" (List.replicate 24 4) rfl rfl (by decide)
    (by decide) rfl (by decide) (by decide) rfl rfl (by decide)
    (by decide) rfl (by decide) (by decide)

end AxKeyStore

